import Mathlib

/-!
Verification of the authenticated-access core of `bilibili-tui`
(WBI request signing, credential extraction/persistence, QR-login
state machine, and the player's cookie-jar lifecycle), shallowly
embedded from the Rust sources.
-/

set_option linter.unusedVariables false

/-! ## Bytes and hex helpers (UTF-8 as used by Rust `str::bytes`) -/

/-- UTF-8 encoding of a Unicode scalar value, as a list of bytes.
Mirrors what Rust's `char::encode_utf8` produces. -/
def utf8Bytes (n : Nat) : List Nat :=
  if n < 0x80 then [n]
  else if n < 0x800 then [0xC0 + n / 64, 0x80 + n % 64]
  else if n < 0x10000 then [0xE0 + n / 4096, 0x80 + n / 64 % 64, 0x80 + n % 64]
  else [0xF0 + n / 262144, 0x80 + n / 4096 % 64, 0x80 + n / 64 % 64, 0x80 + n % 64]

/-- The UTF-8 bytes of a string, as Rust's `str::as_bytes` sees them. -/
def strBytes (s : String) : List Nat :=
  s.data.foldr (fun c acc => utf8Bytes c.toNat ++ acc) []

/-- Uppercase hexadecimal digit for a value below 16. -/
def hexDigitUpper (n : Nat) : Char :=
  if n < 10 then Char.ofNat (48 + n) else Char.ofNat (55 + n)

/-- Lowercase hexadecimal digit for a value below 16. -/
def hexDigitLower (n : Nat) : Char :=
  if n < 10 then Char.ofNat (48 + n) else Char.ofNat (87 + n)

/-- `%XX` escape of one byte, uppercase hex, as Rust's
`format!("%\x7b:02X\x7d", b)` renders a byte. -/
def pctByte (b : Nat) : String :=
  String.mk ['%', hexDigitUpper (b / 16), hexDigitUpper (b % 16)]

/-- Lowercase hex rendering of a byte list. -/
def hexLower (bs : List Nat) : String :=
  String.mk (bs.foldr (fun b acc => hexDigitLower (b / 16) :: hexDigitLower (b % 16) :: acc) [])

/-! ## `src/api/wbi.rs` — URL encoding -/

/-- The characters of the Rust literal `"-_.~"` (pass through unescaped). -/
def unreservedExtra : List Char := ['-', '_', '.', '~']

/-- The characters of the Rust literal `"!'()*"` (dropped from the output).
The second entry is the apostrophe, written by code point. -/
def strippedChars : List Char := ['!', Char.ofNat 39, '(', ')', '*']

/-- Per-character encoding step of `url_encode` in `src/api/wbi.rs`:
the body of the `filter_map` closure. `none` models the character being
filtered out. -/
def urlEncodeChar (c : Char) : Option String :=
  if c.isAlphanum || unreservedExtra.contains c then
    some (String.mk [c])
  else if strippedChars.contains c then
    none
  else
    some (((utf8Bytes c.toNat).map pctByte).foldl (· ++ ·) "")

/-- `url_encode` from `src/api/wbi.rs`: chars are filter-mapped and the
encoded fragments concatenated in input order. -/
def url_encode (s : String) : String :=
  String.join (s.data.filterMap urlEncodeChar)

/-! ## `src/api/wbi.rs` — mixin key derivation -/

/-- The fixed permutation table `MIXIN_KEY_ENC_TAB`. -/
def MIXIN_KEY_ENC_TAB : List Nat :=
  [46, 47, 18, 2, 53, 8, 23, 32, 15, 50, 10, 31, 58, 3, 45, 35, 27, 43, 5, 49, 33, 9, 42, 19, 29,
   28, 14, 39, 12, 38, 41, 13, 37, 48, 7, 16, 24, 55, 40, 61, 26, 17, 0, 1, 60, 51, 30, 4, 22, 25,
   54, 21, 56, 59, 6, 63, 57, 62, 11, 36, 20, 34, 44, 52]

/-- Select the byte at each index of `tab` from `bytes`; `none` models the
Rust panic on an out-of-bounds index (`orig_bytes[i]`). -/
def mixinPick (bytes : List Nat) : List Nat → Option (List Nat)
  | [] => some []
  | i :: rest =>
    match bytes[i]?, mixinPick bytes rest with
    | some b, some bs => some (b :: bs)
    | _, _ => none

/-- `get_mixin_key` from `src/api/wbi.rs`: concatenate the two keys, then
pick the bytes at the first 32 table indices and reassemble them as chars
(`orig_bytes[i] as char`). `none` models the indexing panic on inputs whose
combined byte length is too short. -/
def get_mixin_key (img_key sub_key : String) : Option String :=
  let orig_bytes := strBytes (img_key ++ sub_key)
  (mixinPick orig_bytes (MIXIN_KEY_ENC_TAB.take 32)).map
    fun bs => String.mk (bs.map Char.ofNat)

/-! ## `src/api/wbi.rs` — parameter sorting -/

/-- Lexicographic strict comparison of char lists by code point. On the
UTF-8 strings Rust compares, this agrees with `String::cmp`'s byte-wise
lexicographic order (UTF-8 preserves code-point order). -/
def keyLt : List Char → List Char → Bool
  | [], [] => false
  | [], _ :: _ => true
  | _ :: _, [] => false
  | c :: a, d :: b =>
    if c.toNat < d.toNat then true
    else if d.toNat < c.toNat then false
    else keyLt a b

/-- Insert a pair into a list sorted by key, before the first element whose
key is not smaller: a stable insertion. -/
def insertByKey (p : String × String) : List (String × String) → List (String × String)
  | [] => [p]
  | q :: rest => if keyLt q.1.data p.1.data then q :: insertByKey p rest else p :: q :: rest

/-- Stable sort by key, modelling `params.sort_by(|a, b| a.0.cmp(b.0))`
(Rust's `sort_by` is stable, and `String::cmp` is byte-wise lexicographic,
which agrees with code-point order used here). -/
def sortByKey (l : List (String × String)) : List (String × String) :=
  l.foldr insertByKey []

/-! ## MD5 (RFC 1321), the digest used by the `md5` crate

Modelled from the spec: the `md5` crate called in `src/api/wbi.rs`
(`md5::compute`) is an external dependency; its behaviour is the standard
MD5 digest of RFC 1321, embedded here over byte lists with 32-bit words
represented as `Nat` reduced modulo `2^32`. -/

/-- The 64 MD5 sine-derived round constants. -/
def md5K : List Nat :=
  [0xd76aa478, 0xe8c7b756, 0x242070db, 0xc1bdceee,
   0xf57c0faf, 0x4787c62a, 0xa8304613, 0xfd469501,
   0x698098d8, 0x8b44f7af, 0xffff5bb1, 0x895cd7be,
   0x6b901122, 0xfd987193, 0xa679438e, 0x49b40821,
   0xf61e2562, 0xc040b340, 0x265e5a51, 0xe9b6c7aa,
   0xd62f105d, 0x02441453, 0xd8a1e681, 0xe7d3fbc8,
   0x21e1cde6, 0xc33707d6, 0xf4d50d87, 0x455a14ed,
   0xa9e3e905, 0xfcefa3f8, 0x676f02d9, 0x8d2a4c8a,
   0xfffa3942, 0x8771f681, 0x6d9d6122, 0xfde5380c,
   0xa4beea44, 0x4bdecfa9, 0xf6bb4b60, 0xbebfbc70,
   0x289b7ec6, 0xeaa127fa, 0xd4ef3085, 0x04881d05,
   0xd9d4d039, 0xe6db99e5, 0x1fa27cf8, 0xc4ac5665,
   0xf4292244, 0x432aff97, 0xab9423a7, 0xfc93a039,
   0x655b59c3, 0x8f0ccc92, 0xffeff47d, 0x85845dd1,
   0x6fa87e4f, 0xfe2ce6e0, 0xa3014314, 0x4e0811a1,
   0xf7537e82, 0xbd3af235, 0x2ad7d2bb, 0xeb86d391]

/-- The 64 MD5 per-round left-rotation amounts. -/
def md5S : List Nat :=
  [7, 12, 17, 22, 7, 12, 17, 22, 7, 12, 17, 22, 7, 12, 17, 22,
   5, 9, 14, 20, 5, 9, 14, 20, 5, 9, 14, 20, 5, 9, 14, 20,
   4, 11, 16, 23, 4, 11, 16, 23, 4, 11, 16, 23, 4, 11, 16, 23,
   6, 10, 15, 21, 6, 10, 15, 21, 6, 10, 15, 21, 6, 10, 15, 21]

/-- Left rotation of a 32-bit word held in a `Nat`. -/
def rotl32 (x s : Nat) : Nat :=
  (x * 2 ^ s + x / 2 ^ (32 - s)) % 4294967296

/-- Little-endian bytes of a 32-bit word. -/
def le32 (n : Nat) : List Nat :=
  [n % 256, n / 256 % 256, n / 65536 % 256, n / 16777216 % 256]

/-- Little-endian bytes of a 64-bit length field. -/
def le64 (n : Nat) : List Nat :=
  le32 (n % 4294967296) ++ le32 (n / 4294967296 % 4294967296)

/-- MD5 padding: append `0x80`, zero-pad to 56 mod 64, then the bit length
as a little-endian 64-bit quantity. -/
def md5pad (msg : List Nat) : List Nat :=
  msg ++ 0x80 :: List.replicate ((119 - msg.length % 64) % 64) 0
      ++ le64 (msg.length * 8 % 18446744073709551616)

/-- Split a byte list into 64-byte blocks (fuel-based structural
recursion; the fuel is the list length, ample since each step consumes a
nonempty prefix). -/
def chunks64Go : Nat → List Nat → List (List Nat)
  | 0, _ => []
  | _ + 1, [] => []
  | fuel + 1, l => l.take 64 :: chunks64Go fuel (l.drop 64)

/-- Split a byte list into 64-byte blocks. -/
def chunks64 (l : List Nat) : List (List Nat) :=
  chunks64Go l.length l

/-- The running MD5 state: four 32-bit words. -/
structure MD5State where
  a : Nat
  b : Nat
  c : Nat
  d : Nat

/-- The `g`-th little-endian 32-bit word of a 64-byte block. -/
def md5Word (block : List Nat) (g : Nat) : Nat :=
  (block[4 * g]?).getD 0 + (block[4 * g + 1]?).getD 0 * 256
    + (block[4 * g + 2]?).getD 0 * 65536 + (block[4 * g + 3]?).getD 0 * 16777216

/-- One of the 64 MD5 rounds on a block. -/
def md5Round (block : List Nat) (st : MD5State) (i : Nat) : MD5State :=
  let fg : Nat × Nat :=
    if i < 16 then
      ((st.b &&& st.c) ||| ((4294967295 - st.b) &&& st.d), i)
    else if i < 32 then
      ((st.d &&& st.b) ||| ((4294967295 - st.d) &&& st.c), (5 * i + 1) % 16)
    else if i < 48 then
      (st.b ^^^ st.c ^^^ st.d, (3 * i + 5) % 16)
    else
      (st.c ^^^ (st.b ||| (4294967295 - st.d)), (7 * i) % 16)
  let f := (fg.1 + st.a + md5K.getD i 0 + md5Word block fg.2) % 4294967296
  ⟨st.d, (st.b + rotl32 f (md5S.getD i 0)) % 4294967296, st.b, st.c⟩

/-- Process one 64-byte block. -/
def md5Block (st : MD5State) (block : List Nat) : MD5State :=
  let r := (List.range 64).foldl (md5Round block) st
  ⟨(st.a + r.a) % 4294967296, (st.b + r.b) % 4294967296,
   (st.c + r.c) % 4294967296, (st.d + r.d) % 4294967296⟩

/-- MD5 digest of a byte list: the 16 digest bytes. -/
def md5Bytes (msg : List Nat) : List Nat :=
  let st := (chunks64 (md5pad msg)).foldl md5Block
    ⟨0x67452301, 0xefcdab89, 0x98badcfe, 0x10325476⟩
  le32 st.a ++ le32 st.b ++ le32 st.c ++ le32 st.d

/-! ## `src/api/wbi.rs` — signing -/

/-- `encode_wbi_with_timestamp` from `src/api/wbi.rs`: append `wts`, sort
by key, percent-encode each key and value, join with `&`, and append the
lowercase-hex MD5 of `query ++ mixin_key` as `w_rid`. `none` models the
panic inside `get_mixin_key` on too-short keys. -/
def encode_wbi_with_timestamp (params : List (String × String))
    (img_key sub_key : String) (timestamp : Nat) : Option String :=
  (get_mixin_key img_key sub_key).map fun mixin_key =>
    let withWts := params ++ [("wts", toString timestamp)]
    let sorted := sortByKey withWts
    let query := String.intercalate "&"
      (sorted.map fun p => url_encode p.1 ++ "=" ++ url_encode p.2)
    let w_rid := hexLower (md5Bytes (strBytes (query ++ mixin_key)))
    query ++ "&w_rid=" ++ w_rid

/-! ## `src/storage/mod.rs` — credentials -/

/-- The `Credentials` struct from `src/storage/mod.rs`. -/
structure Credentials where
  sessdata : String
  bili_jct : String
  dede_user_id : String
  dede_user_id_ckmd5 : Option String
  refresh_token : Option String
deriving DecidableEq, Repr

/-- The four option registers filled by the cookie scan loop of
`Credentials::from_cookies`. -/
structure CookieAcc where
  sessdata : Option String
  bili_jct : Option String
  dede_user_id : Option String
  dede_user_id_ckmd5 : Option String
deriving DecidableEq

/-- One iteration of the `for (name, value) in cookies` loop in
`Credentials::from_cookies`. -/
def cookieStep (acc : CookieAcc) (p : String × String) : CookieAcc :=
  if p.1 = "SESSDATA" then { acc with sessdata := some p.2 }
  else if p.1 = "bili_jct" then { acc with bili_jct := some p.2 }
  else if p.1 = "DedeUserID" then { acc with dede_user_id := some p.2 }
  else if p.1 = "DedeUserID__ckMd5" then { acc with dede_user_id_ckmd5 := some p.2 }
  else acc

/-- `Credentials::from_cookies` from `src/storage/mod.rs`: scan the cookie
list, then require the three mandatory registers (the `?` operators on
`sessdata`, `bili_jct`, `dede_user_id`). -/
def Credentials.from_cookies (cookies : List (String × String))
    (refresh_token : Option String) : Option Credentials :=
  let acc := cookies.foldl cookieStep ⟨none, none, none, none⟩
  match acc.sessdata, acc.bili_jct, acc.dede_user_id with
  | some s, some b, some d => some ⟨s, b, d, acc.dede_user_id_ckmd5, refresh_token⟩
  | _, _, _ => none

/-- First operand wins when present. -/
def optOr (a b : Option String) : Option String :=
  match a with
  | some x => some x
  | none => b

/-- The value of the last cookie named `n` in the list, if any
(later entries win). -/
def lastVal (n : String) : List (String × String) → Option String
  | [] => none
  | p :: l => optOr (lastVal n l) (if p.1 = n then some p.2 else none)

/-- The cookie names that `Credentials::from_cookies` recognizes. -/
def recognizedName (n : String) : Bool :=
  n = "SESSDATA" || n = "bili_jct" || n = "DedeUserID" || n = "DedeUserID__ckMd5"

/-! ## `src/storage/mod.rs` — persistence

The file contents are modelled at the JSON-document level: `serde_json`
(an external dependency) is treated as a faithful codec between JSON
documents and their text, so `save_credentials` produces the document
`serde_json::to_string_pretty` renders and `load_credentials` consumes the
document `serde_json::from_str` parses. The filesystem slot for
`credentials.json` is an explicit `Option Json` state. -/

/-- JSON documents (the fragment needed for `credentials.json`). -/
inductive Json where
  | null
  | str (s : String)
  | num (n : Int)
  | obj (fields : List (String × Json))

/-- Serde rendering of an `Option String` field: `None` becomes `null`. -/
def optJson : Option String → Json
  | none => Json.null
  | some s => Json.str s

/-- The JSON document `serde_json::to_string_pretty` renders for a
`Credentials` value (derived `Serialize`: all five fields, in declaration
order, `None` as `null`). -/
def Credentials.toJson (c : Credentials) : Json :=
  Json.obj [("sessdata", Json.str c.sessdata),
            ("bili_jct", Json.str c.bili_jct),
            ("dede_user_id", Json.str c.dede_user_id),
            ("dede_user_id_ckmd5", optJson c.dede_user_id_ckmd5),
            ("refresh_token", optJson c.refresh_token)]

/-- Look up a field of a JSON object by name. -/
def Json.lookupField (n : String) : List (String × Json) → Option Json
  | [] => none
  | f :: fs => if f.1 = n then some f.2 else Json.lookupField n fs

/-- Serde reading of an `Option String` field: a missing field and an
explicit `null` both deserialize to `None`; anything but a string is a
type error (`none` here). -/
def optFromJson : Option Json → Option (Option String)
  | none => some none
  | some Json.null => some none
  | some (Json.str s) => some (some s)
  | some _ => none

/-- Derived `Deserialize` for `Credentials`: the three mandatory `String`
fields must be present as strings; the two `Option` fields may be missing
or `null`. `none` models a `serde_json` parse error. -/
def Credentials.fromJson : Json → Option Credentials
  | Json.obj fs =>
    match Json.lookupField "sessdata" fs, Json.lookupField "bili_jct" fs,
          Json.lookupField "dede_user_id" fs with
    | some (Json.str s), some (Json.str b), some (Json.str d) =>
      match optFromJson (Json.lookupField "dede_user_id_ckmd5" fs),
            optFromJson (Json.lookupField "refresh_token" fs) with
      | some ck, some rt => some ⟨s, b, d, ck, rt⟩
      | _, _ => none
    | _, _, _ => none
  | _ => none

/-- The two failure kinds of `load_credentials`: the `fs::read_to_string`
error when the file is missing, and the `serde_json::from_str` error when
it cannot be parsed. They are distinct error values. -/
inductive LoadError where
  | notFound
  | corrupt
deriving DecidableEq

/-- `save_credentials` from `src/storage/mod.rs`: overwrite the
credentials-file slot with the serialized document. -/
def save_credentials (c : Credentials) (fsSlot : Option Json) : Option Json :=
  some (Credentials.toJson c)

/-- `load_credentials` from `src/storage/mod.rs`: read the file (missing
file propagates the I/O error) and parse it (parse failure propagates the
serde error). -/
def load_credentials (fsSlot : Option Json) : Except LoadError Credentials :=
  match fsSlot with
  | none => Except.error LoadError.notFound
  | some j =>
    match Credentials.fromJson j with
    | some c => Except.ok c
    | none => Except.error LoadError.corrupt

/-! ## `src/api/auth.rs` — poll status codes -/

/-- `QrcodePollStatus` from `src/api/auth.rs`. -/
inductive QrcodePollStatus where
  | Waiting
  | Scanned
  | Success
  | Expired
  | Unknown (code : Int)
deriving DecidableEq, Repr

/-- `impl From<i32> for QrcodePollStatus` from `src/api/auth.rs`. -/
def QrcodePollStatus.fromCode (code : Int) : QrcodePollStatus :=
  if code = 86101 then QrcodePollStatus.Waiting
  else if code = 86090 then QrcodePollStatus.Scanned
  else if code = 0 then QrcodePollStatus.Success
  else if code = 86038 then QrcodePollStatus.Expired
  else QrcodePollStatus.Unknown code

/-- `QrcodeData` from `src/api/auth.rs`. -/
structure QrcodeData where
  url : String
  qrcode_key : String
deriving DecidableEq

/-- `QrcodePollData` from `src/api/auth.rs`. -/
structure QrcodePollData where
  url : String
  refresh_token : String
  timestamp : Int
  code : Int
  message : String
deriving DecidableEq

/-- `QrcodePollResult` from `src/api/auth.rs`. -/
structure QrcodePollResult where
  data : Option QrcodePollData
  cookies : List (String × String)
deriving DecidableEq

/-! ## `src/ui/login.rs` — the login page state machine -/

/-- `AppAction` from `src/app/action.rs` (the variants `tick` can use). -/
inductive AppAction where
  | Quit
  | SwitchToHome
  | SwitchToLogin
  | LoginSuccess (creds : Credentials)
  | PlayVideo (bvid : String)
  | NavNext
  | NavPrev
  | Search (query : String)
  | RefreshDynamic
  | NoAction
deriving DecidableEq

/-- The fields of `LoginPage` that `tick` reads and writes (`last_poll`
is abstracted into the `shouldPoll` input of `tick`). -/
structure LoginPage where
  qrcode_data : Option QrcodeData
  error_message : Option String
  poll_status : QrcodePollStatus
deriving DecidableEq

/-- The outcome of the awaited `api_client.poll_qrcode` call. -/
inductive PollNet where
  | ok (result : QrcodePollResult)
  | err (e : String)
deriving DecidableEq

/-- `LoginPage::tick` from `src/ui/login.rs`, with time and network made
explicit: `shouldPoll` is the value of the 2-second pacing check, and
`net` is the response the poll would produce. Returns the new page state,
the action handed to the app, and whether a network poll was issued. -/
def LoginPage.tick (st : LoginPage) (shouldPoll : Bool) (net : PollNet) :
    LoginPage × Option AppAction × Bool :=
  match st.qrcode_data with
  | none => (st, none, false)
  | some _ =>
    if st.poll_status = QrcodePollStatus.Success
        ∨ st.poll_status = QrcodePollStatus.Expired then
      (st, none, false)
    else if !shouldPoll then
      (st, none, false)
    else
      match net with
      | PollNet.ok result =>
        match result.data with
        | some data =>
          if QrcodePollStatus.fromCode data.code = QrcodePollStatus.Success then
            match Credentials.from_cookies result.cookies (some data.refresh_token) with
            | some creds =>
              ({ st with poll_status := QrcodePollStatus.fromCode data.code },
               some (AppAction.LoginSuccess creds), true)
            | none =>
              ({ st with poll_status := QrcodePollStatus.fromCode data.code }, none, true)
          else
            ({ st with poll_status := QrcodePollStatus.fromCode data.code }, none, true)
        | none => (st, none, true)
      | PollNet.err e => ({ st with error_message := some e }, none, true)

/-! ## `src/player/mod.rs` — cookie-jar lifecycle in `play_video` -/

/-- The error exits of `play_video` (each `?` operator). -/
inductive PlayErr where
  | exportFailed
  | spawnFailed
  | waitFailed
deriving DecidableEq

/-- The filesystem slot for the exported `cookies.txt`. -/
structure PlayerFs where
  cookie_file : Bool
deriving DecidableEq, Repr

/-- `play_video` from `src/player/mod.rs`, with subprocess and filesystem
outcomes made explicit: `exportOk`, `spawnOk`, `waitOk` say whether
`export_cookies_for_ytdlp`, `cmd.spawn()` and `child.wait()` succeed.
Returns the cookie-file state at function return and the result. The
cookie file is written by a successful export and removed only where the
code calls `remove_file`. -/
def play_video (credentials : Option Credentials)
    (exportOk spawnOk waitOk : Bool) (fs : PlayerFs) :
    PlayerFs × Except PlayErr Unit :=
  match credentials with
  | some _ =>
    if !exportOk then (fs, Except.error PlayErr.exportFailed)
    else
      let fs1 : PlayerFs := ⟨true⟩
      if !spawnOk then (fs1, Except.error PlayErr.spawnFailed)
      else if !waitOk then (fs1, Except.error PlayErr.waitFailed)
      else (⟨false⟩, Except.ok ())
  | none =>
    if !spawnOk then (fs, Except.error PlayErr.spawnFailed)
    else if !waitOk then (fs, Except.error PlayErr.waitFailed)
    else (fs, Except.ok ())

/-! ## Spec-side definition for the URL-encoding claim

Written from the spec's wording, independently of `url_encode`, to be
compared with it. -/

/-- Per-character encoding as the spec describes it: ASCII letters,
digits and `-_.~` pass through; `!`, apostrophe, `(`, `)`, `*` are
removed; every other character contributes `%XX` (uppercase hex) per
UTF-8 byte. -/
def specCharEncoding (c : Char) : String :=
  if (65 ≤ c.toNat ∧ c.toNat ≤ 90) ∨ (97 ≤ c.toNat ∧ c.toNat ≤ 122)
      ∨ (48 ≤ c.toNat ∧ c.toNat ≤ 57)
      ∨ c = '-' ∨ c = '_' ∨ c = '.' ∨ c = '~' then
    String.mk [c]
  else if c = '!' ∨ c = Char.ofNat 39 ∨ c = '(' ∨ c = ')' ∨ c = '*' then
    ""
  else
    String.join ((utf8Bytes c.toNat).map pctByte)

/-! ## Helper lemmas about the cookie scan -/

theorem optOr_some (x : String) (b : Option String) : optOr (some x) b = some x := rfl

theorem optOr_none (b : Option String) : optOr none b = b := rfl

theorem optOr_none_right (a : Option String) : optOr a none = a := by
  cases a <;> rfl

theorem optOr_assoc (a b c : Option String) :
    optOr (optOr a b) c = optOr a (optOr b c) := by
  cases a <;> rfl

theorem optOr_eq_none_iff (a b : Option String) :
    optOr a b = none ↔ a = none ∧ b = none := by
  cases a <;> simp [optOr]

theorem cookieStep_sessdata (acc : CookieAcc) (p : String × String) :
    (cookieStep acc p).sessdata
      = if p.1 = "SESSDATA" then some p.2 else acc.sessdata := by
  unfold cookieStep
  split_ifs <;> simp_all

theorem cookieStep_jct (acc : CookieAcc) (p : String × String) :
    (cookieStep acc p).bili_jct
      = if p.1 = "bili_jct" then some p.2 else acc.bili_jct := by
  unfold cookieStep
  split_ifs <;> simp_all

theorem cookieStep_dede (acc : CookieAcc) (p : String × String) :
    (cookieStep acc p).dede_user_id
      = if p.1 = "DedeUserID" then some p.2 else acc.dede_user_id := by
  unfold cookieStep
  split_ifs <;> simp_all

theorem cookieStep_ckmd5 (acc : CookieAcc) (p : String × String) :
    (cookieStep acc p).dede_user_id_ckmd5
      = if p.1 = "DedeUserID__ckMd5" then some p.2 else acc.dede_user_id_ckmd5 := by
  unfold cookieStep
  split_ifs <;> simp_all

theorem foldl_cookieStep_sessdata (l : List (String × String)) :
    ∀ acc : CookieAcc,
      (l.foldl cookieStep acc).sessdata = optOr (lastVal "SESSDATA" l) acc.sessdata := by
  induction l with
  | nil => intro acc; rfl
  | cons p l ih =>
    intro acc
    rw [List.foldl_cons, ih, lastVal, optOr_assoc, cookieStep_sessdata]
    by_cases h : p.1 = "SESSDATA" <;> simp [h, optOr_some, optOr_none]

theorem foldl_cookieStep_jct (l : List (String × String)) :
    ∀ acc : CookieAcc,
      (l.foldl cookieStep acc).bili_jct = optOr (lastVal "bili_jct" l) acc.bili_jct := by
  induction l with
  | nil => intro acc; rfl
  | cons p l ih =>
    intro acc
    rw [List.foldl_cons, ih, lastVal, optOr_assoc, cookieStep_jct]
    by_cases h : p.1 = "bili_jct" <;> simp [h, optOr_some, optOr_none]

theorem foldl_cookieStep_dede (l : List (String × String)) :
    ∀ acc : CookieAcc,
      (l.foldl cookieStep acc).dede_user_id
        = optOr (lastVal "DedeUserID" l) acc.dede_user_id := by
  induction l with
  | nil => intro acc; rfl
  | cons p l ih =>
    intro acc
    rw [List.foldl_cons, ih, lastVal, optOr_assoc, cookieStep_dede]
    by_cases h : p.1 = "DedeUserID" <;> simp [h, optOr_some, optOr_none]

theorem foldl_cookieStep_ckmd5 (l : List (String × String)) :
    ∀ acc : CookieAcc,
      (l.foldl cookieStep acc).dede_user_id_ckmd5
        = optOr (lastVal "DedeUserID__ckMd5" l) acc.dede_user_id_ckmd5 := by
  induction l with
  | nil => intro acc; rfl
  | cons p l ih =>
    intro acc
    rw [List.foldl_cons, ih, lastVal, optOr_assoc, cookieStep_ckmd5]
    by_cases h : p.1 = "DedeUserID__ckMd5" <;> simp [h, optOr_some, optOr_none]

/-- `from_cookies` in terms of the last-seen value of each recognized name. -/
theorem from_cookies_eq (l : List (String × String)) (r : Option String) :
    Credentials.from_cookies l r =
      match lastVal "SESSDATA" l, lastVal "bili_jct" l, lastVal "DedeUserID" l with
      | some s, some b, some d => some ⟨s, b, d, lastVal "DedeUserID__ckMd5" l, r⟩
      | _, _, _ => none := by
  simp only [Credentials.from_cookies]
  rw [foldl_cookieStep_sessdata, foldl_cookieStep_jct, foldl_cookieStep_dede,
    foldl_cookieStep_ckmd5]
  simp only [optOr_none_right]

theorem lastVal_eq_none (n : String) :
    ∀ l : List (String × String), lastVal n l = none ↔ n ∉ l.map Prod.fst := by
  intro l
  induction l with
  | nil => simp [lastVal]
  | cons p l ih =>
    rw [lastVal, optOr_eq_none_iff]
    by_cases h : p.1 = n
    · subst h
      simp
    · have hne : ¬n = p.1 := fun he => h he.symm
      simp [if_neg h, ih, hne]

theorem lastVal_filter (n : String) (hn : recognizedName n = true) :
    ∀ l : List (String × String),
      lastVal n (l.filter fun p => recognizedName p.1) = lastVal n l := by
  intro l
  induction l with
  | nil => rfl
  | cons p l ih =>
    rw [List.filter_cons]
    by_cases h : recognizedName p.1 = true
    · rw [if_pos h, lastVal, ih, lastVal]
    · have hpn : p.1 ≠ n := fun he => h (by rw [he]; exact hn)
      rw [if_neg h, ih, lastVal, if_neg hpn, optOr_none_right]

/-! ## Helper lemmas about URL encoding -/

theorem isAlphanum_iff (c : Char) :
    c.isAlphanum = true ↔
      ((65 ≤ c.toNat ∧ c.toNat ≤ 90) ∨ (97 ≤ c.toNat ∧ c.toNat ≤ 122)
        ∨ (48 ≤ c.toNat ∧ c.toNat ≤ 57)) := by
  simp [Char.isAlphanum, Char.isAlpha, Char.isUpper, Char.isLower, Char.isDigit,
    UInt32.le_def, BitVec.le_def, Char.toNat, UInt32.toNat]
  tauto

theorem unreservedExtra_contains_iff (c : Char) :
    unreservedExtra.contains c = true ↔ (c = '-' ∨ c = '_' ∨ c = '.' ∨ c = '~') := by
  simp [unreservedExtra, List.contains]

theorem strippedChars_contains_iff (c : Char) :
    strippedChars.contains c = true ↔
      (c = '!' ∨ c = Char.ofNat 39 ∨ c = '(' ∨ c = ')' ∨ c = '*') := by
  simp [strippedChars, List.contains]

theorem strFoldlAppend (l : List String) :
    ∀ a b : String, l.foldl (fun r s => r ++ s) (a ++ b)
      = a ++ l.foldl (fun r s => r ++ s) b := by
  induction l with
  | nil => intro a b; rfl
  | cons x xs ih =>
    intro a b
    simp only [List.foldl_cons]
    rw [String.append_assoc, ih]

theorem strJoin_cons (x : String) (l : List String) :
    String.join (x :: l) = x ++ String.join l := by
  show (x :: l).foldl (fun r s => r ++ s) "" = x ++ l.foldl (fun r s => r ++ s) ""
  simp only [List.foldl_cons]
  have h : ("" : String) ++ x = x ++ "" := by simp
  rw [h, strFoldlAppend]

/-- Per-character agreement of the source encoder with the spec's
character rules. -/
theorem urlEncodeChar_agrees (c : Char) :
    urlEncodeChar c = some (specCharEncoding c) ∨
      (urlEncodeChar c = none ∧ specCharEncoding c = "") := by
  unfold urlEncodeChar specCharEncoding
  by_cases hA : (65 ≤ c.toNat ∧ c.toNat ≤ 90) ∨ (97 ≤ c.toNat ∧ c.toNat ≤ 122)
      ∨ (48 ≤ c.toNat ∧ c.toNat ≤ 57)
      ∨ c = '-' ∨ c = '_' ∨ c = '.' ∨ c = '~'
  · have hb : (c.isAlphanum || unreservedExtra.contains c) = true := by
      rw [Bool.or_eq_true, isAlphanum_iff, unreservedExtra_contains_iff]
      rcases hA with h | h | h | h
      · exact Or.inl (Or.inl h)
      · exact Or.inl (Or.inr (Or.inl h))
      · exact Or.inl (Or.inr (Or.inr h))
      · exact Or.inr h
    rw [if_pos hb, if_pos hA]
    left
    rfl
  · have hbne : ¬(c.isAlphanum || unreservedExtra.contains c) = true := by
      intro hcon
      apply hA
      rw [Bool.or_eq_true, isAlphanum_iff, unreservedExtra_contains_iff] at hcon
      rcases hcon with h | h
      · rcases h with h | h | h
        · exact Or.inl h
        · exact Or.inr (Or.inl h)
        · exact Or.inr (Or.inr (Or.inl h))
      · exact Or.inr (Or.inr (Or.inr h))
    rw [if_neg hbne, if_neg hA]
    by_cases hB : c = '!' ∨ c = Char.ofNat 39 ∨ c = '(' ∨ c = ')' ∨ c = '*'
    · have hs : strippedChars.contains c = true := (strippedChars_contains_iff c).mpr hB
      rw [if_pos hs, if_pos hB]
      right
      exact ⟨rfl, rfl⟩
    · have hsne : ¬strippedChars.contains c = true := fun hcon =>
        hB ((strippedChars_contains_iff c).mp hcon)
      rw [if_neg hsne, if_neg hB]
      left
      rfl

/-- Joining the filter-mapped fragments equals joining the per-character
spec encodings. -/
theorem urlEncodeList_eq_spec (cs : List Char) :
    String.join (cs.filterMap urlEncodeChar) = String.join (cs.map specCharEncoding) := by
  induction cs with
  | nil => rfl
  | cons c cs ih =>
    rw [List.map_cons, strJoin_cons]
    rcases urlEncodeChar_agrees c with h | ⟨h1, h2⟩
    · simp only [List.filterMap_cons, h]
      rw [strJoin_cons, ih]
    · simp only [List.filterMap_cons, h1]
      rw [ih, h2]
      simp

/-! ## Helper lemmas about the mixin-key selection -/

theorem mixinPick_length (bytes : List Nat) :
    ∀ tab : List Nat, (∀ i ∈ tab, i < bytes.length) →
      ∃ l, mixinPick bytes tab = some l ∧ l.length = tab.length := by
  intro tab
  induction tab with
  | nil => intro h; exact ⟨[], rfl, rfl⟩
  | cons i t ih =>
    intro h
    have hi : i < bytes.length := h i (List.mem_cons_self i t)
    obtain ⟨l, hl, hlen⟩ := ih fun j hj => h j (List.mem_cons_of_mem i hj)
    refine ⟨bytes[i] :: l, ?_, by simp [hlen]⟩
    simp [mixinPick, hl, List.getElem?_eq_getElem hi]

/-! ## Helper lemmas about the login tick -/

theorem tick_terminal_helper (st : LoginPage) (sp : Bool) (net : PollNet)
    (h : st.poll_status = QrcodePollStatus.Success
      ∨ st.poll_status = QrcodePollStatus.Expired) :
    LoginPage.tick st sp net = (st, none, false) := by
  unfold LoginPage.tick
  cases hq : st.qrcode_data with
  | none => rfl
  | some q => simp [h]

theorem tick_nonterminal_polls (st : LoginPage) (q : QrcodeData) (net : PollNet)
    (hq : st.qrcode_data = some q)
    (hnt : ¬(st.poll_status = QrcodePollStatus.Success
      ∨ st.poll_status = QrcodePollStatus.Expired)) :
    (LoginPage.tick st true net).2.2 = true := by
  cases net with
  | err e => simp [LoginPage.tick, hq, hnt]
  | ok r =>
    cases hr : r.data with
    | none => simp [LoginPage.tick, hq, hnt, hr]
    | some data =>
      by_cases hS : QrcodePollStatus.fromCode data.code = QrcodePollStatus.Success
      · cases hcc : Credentials.from_cookies r.cookies (some data.refresh_token) <;>
          simp [LoginPage.tick, hq, hnt, hr, hS, hcc]
      · simp [LoginPage.tick, hq, hnt, hr, hS]

/-! ## Claims -/

set_option maxRecDepth 100000 in
set_option maxHeartbeats 4000000 in
/-- C1: For the parameter multiset containing foo="114", bar="514",
zab="1919810" (fed in any input order), the image/sub key pair of the
repository's test vector and timestamp 1702204169, the signing function
returns exactly the expected signed query string. -/
theorem wbi_sign_test_vector (l : List (String × String))
    (h : l.Perm [("foo", "114"), ("bar", "514"), ("zab", "1919810")]) :
    encode_wbi_with_timestamp l "7cd084941338484aae1ad9425b84077c"
      "4932caff0ff746eab6f01bf08b70ac45" 1702204169
      = some "bar=514&foo=114&wts=1702204169&zab=1919810&w_rid=8f6f2b5b3d485fe1886cec6a0be8c5d4" := by
  have hm : l ∈ ([("foo", "114"), ("bar", "514"), ("zab", "1919810")] :
      List (String × String)).permutations' := List.mem_permutations'.mpr h
  have he : ([("foo", "114"), ("bar", "514"), ("zab", "1919810")] :
      List (String × String)).permutations'
      = [[("foo", "114"), ("bar", "514"), ("zab", "1919810")],
         [("bar", "514"), ("foo", "114"), ("zab", "1919810")],
         [("bar", "514"), ("zab", "1919810"), ("foo", "114")],
         [("foo", "114"), ("zab", "1919810"), ("bar", "514")],
         [("zab", "1919810"), ("foo", "114"), ("bar", "514")],
         [("zab", "1919810"), ("bar", "514"), ("foo", "114")]] := by rfl
  rw [he] at hm
  simp only [List.mem_cons, List.not_mem_nil, or_false] at hm
  rcases hm with rfl | rfl | rfl | rfl | rfl | rfl <;> rfl

set_option maxRecDepth 100000 in
set_option maxHeartbeats 4000000 in
/-- Witness for C1: the theorem applied to one concrete input order. -/
theorem wbi_sign_test_vector_witness :
    encode_wbi_with_timestamp [("bar", "514"), ("zab", "1919810"), ("foo", "114")]
      "7cd084941338484aae1ad9425b84077c" "4932caff0ff746eab6f01bf08b70ac45" 1702204169
      = some "bar=514&foo=114&wts=1702204169&zab=1919810&w_rid=8f6f2b5b3d485fe1886cec6a0be8c5d4" :=
  wbi_sign_test_vector [("bar", "514"), ("zab", "1919810"), ("foo", "114")]
    (List.mem_permutations'.mp (by decide))

/-- C2: For every input string, `url_encode` is the concatenation, in input
order, of the per-character encodings demanded by the spec: ASCII letters,
digits and dash, underscore, dot, tilde pass through; bang, apostrophe,
parentheses and star are removed; every other character becomes uppercase
percent escapes of its UTF-8 bytes. -/
theorem url_encode_matches_spec (s : String) :
    url_encode s = String.join (s.data.map specCharEncoding) :=
  urlEncodeList_eq_spec s.data

/-- C5 counterexample: on two empty (ASCII) strings the mixin-key
derivation does not return a 32-character string — it panics on an
out-of-bounds byte index (modelled as `none`), refuting totality for
arbitrary lengths. -/
theorem get_mixin_key_short_input_cex : get_mixin_key "" "" = none := rfl

/-- C5 (amended): mixin-key derivation returns a 32-character string for
every pair of strings whose combined UTF-8 byte length is at least 59 (59
is one more than the largest table index among the first 32 entries);
shorter combined inputs panic in the Rust code. -/
theorem get_mixin_key_long_inputs_total (img_key sub_key : String)
    (h : 59 ≤ (strBytes (img_key ++ sub_key)).length) :
    ∃ r, get_mixin_key img_key sub_key = some r ∧ r.length = 32 := by
  have hb : ∀ i ∈ MIXIN_KEY_ENC_TAB.take 32, i < 59 := by decide
  obtain ⟨l, hl, hlen⟩ := mixinPick_length (strBytes (img_key ++ sub_key))
    (MIXIN_KEY_ENC_TAB.take 32) fun i hi => Nat.lt_of_lt_of_le (hb i hi) h
  refine ⟨String.mk (l.map Char.ofNat), ?_, ?_⟩
  · simp [get_mixin_key, hl]
  · have h32 : (MIXIN_KEY_ENC_TAB.take 32).length = 32 := by decide
    simp [String.length, hlen, h32]

/-- Witness for C5 (amended): the repository's test key pair (64 bytes
combined) satisfies the length bound and derives a 32-character key. -/
theorem get_mixin_key_long_inputs_total_witness :
    ∃ r, get_mixin_key "7cd084941338484aae1ad9425b84077c"
      "4932caff0ff746eab6f01bf08b70ac45" = some r ∧ r.length = 32 :=
  get_mixin_key_long_inputs_total "7cd084941338484aae1ad9425b84077c"
    "4932caff0ff746eab6f01bf08b70ac45" (by decide)

/-- C6: `from_cookies` returns `none` iff one of the three mandatory
cookie names is missing; unrecognized cookie names have no effect; and on
success each field holds the last-seen value of its cookie name, with the
refresh token passed through. -/
theorem from_cookies_spec (cookies : List (String × String)) (refresh : Option String) :
    (Credentials.from_cookies cookies refresh = none ↔
      ("SESSDATA" ∉ cookies.map Prod.fst ∨ "bili_jct" ∉ cookies.map Prod.fst
        ∨ "DedeUserID" ∉ cookies.map Prod.fst)) ∧
    Credentials.from_cookies (cookies.filter fun p => recognizedName p.1) refresh
      = Credentials.from_cookies cookies refresh ∧
    (∀ c : Credentials, Credentials.from_cookies cookies refresh = some c →
      some c.sessdata = lastVal "SESSDATA" cookies ∧
      some c.bili_jct = lastVal "bili_jct" cookies ∧
      some c.dede_user_id = lastVal "DedeUserID" cookies ∧
      c.dede_user_id_ckmd5 = lastVal "DedeUserID__ckMd5" cookies ∧
      c.refresh_token = refresh) := by
  refine ⟨?_, ?_, ?_⟩
  · rw [from_cookies_eq,
      ← lastVal_eq_none "SESSDATA" cookies,
      ← lastVal_eq_none "bili_jct" cookies,
      ← lastVal_eq_none "DedeUserID" cookies]
    cases hS : lastVal "SESSDATA" cookies <;>
      cases hB : lastVal "bili_jct" cookies <;>
        cases hD : lastVal "DedeUserID" cookies <;> simp
  · rw [from_cookies_eq, from_cookies_eq,
      lastVal_filter "SESSDATA" rfl cookies,
      lastVal_filter "bili_jct" rfl cookies,
      lastVal_filter "DedeUserID" rfl cookies,
      lastVal_filter "DedeUserID__ckMd5" rfl cookies]
  · intro c hc
    rw [from_cookies_eq] at hc
    cases hS : lastVal "SESSDATA" cookies <;> rw [hS] at hc
    case none => simp at hc
    cases hB : lastVal "bili_jct" cookies <;> rw [hB] at hc
    case none => simp at hc
    cases hD : lastVal "DedeUserID" cookies <;> rw [hD] at hc
    case none => simp at hc
    simp only [Option.some.injEq] at hc
    rw [← hc]
    exact ⟨rfl, rfl, rfl, rfl, rfl⟩

/-- Witness for C6: the last-seen-wins clause applied to a concrete cookie
list with a repeated mandatory name and an unrelated name. -/
theorem from_cookies_spec_witness :
    some ("s2" : String) = lastVal "SESSDATA"
      [("SESSDATA", "s1"), ("junk", "x"), ("SESSDATA", "s2"),
       ("bili_jct", "b"), ("DedeUserID", "d")] ∧
    some ("b" : String) = lastVal "bili_jct"
      [("SESSDATA", "s1"), ("junk", "x"), ("SESSDATA", "s2"),
       ("bili_jct", "b"), ("DedeUserID", "d")] ∧
    some ("d" : String) = lastVal "DedeUserID"
      [("SESSDATA", "s1"), ("junk", "x"), ("SESSDATA", "s2"),
       ("bili_jct", "b"), ("DedeUserID", "d")] ∧
    (none : Option String) = lastVal "DedeUserID__ckMd5"
      [("SESSDATA", "s1"), ("junk", "x"), ("SESSDATA", "s2"),
       ("bili_jct", "b"), ("DedeUserID", "d")] ∧
    (none : Option String) = (none : Option String) :=
  (from_cookies_spec
      [("SESSDATA", "s1"), ("junk", "x"), ("SESSDATA", "s2"),
       ("bili_jct", "b"), ("DedeUserID", "d")] none).2.2
    ⟨"s2", "b", "d", none, none⟩ rfl

/-- C7: persisting any well-formed `Credentials` value (with any
combination of present/absent optional fields) and loading it back yields
the same value — the serialization round-trips losslessly. -/
theorem save_load_roundtrip (c : Credentials) (fsSlot : Option Json) :
    load_credentials (save_credentials c fsSlot) = Except.ok c := by
  obtain ⟨s, b, d, ck, rt⟩ := c
  cases ck <;> cases rt <;> rfl

/-- C8: loading fails with `notFound` when no credential file exists, with
the distinct `corrupt` error when the file exists but does not parse into
a well-formed `Credentials`, and the two failure kinds are different
values, distinguishable by the caller. -/
theorem load_failure_modes :
    load_credentials none = Except.error LoadError.notFound ∧
    (∀ j : Json, Credentials.fromJson j = none →
      load_credentials (some j) = Except.error LoadError.corrupt) ∧
    LoadError.notFound ≠ LoadError.corrupt := by
  refine ⟨rfl, ?_, by decide⟩
  intro j hj
  simp [load_credentials, hj]

/-- Witness for C8: a present-but-unparsable file (an empty JSON object,
missing the mandatory fields) yields `corrupt`. -/
theorem load_failure_modes_witness :
    load_credentials (some (Json.obj [])) = Except.error LoadError.corrupt :=
  load_failure_modes.2.1 (Json.obj []) rfl

/-- C9 (code bug): with credentials present, the cookie jar is exported,
and then `cmd.spawn()` fails; `play_video` returns through the `?`
operator with the exported cookie file still on disk — the claimed
delete-on-every-exit-path discipline is violated by the code. -/
theorem play_video_spawn_failure_leaks :
    play_video (some ⟨"s", "b", "d", none, none⟩) true false true ⟨false⟩
      = (⟨true⟩, Except.error PlayErr.spawnFailed) := rfl

/-- C10: once the page's poll status is terminal (`Success` or `Expired` —
the code has no `Failed` status value, so these are the only reachable
terminal states), every subsequent tick issues no poll and leaves the
state unchanged. -/
theorem tick_terminal_no_poll (st : LoginPage) (shouldPoll : Bool) (net : PollNet)
    (h : st.poll_status = QrcodePollStatus.Success
      ∨ st.poll_status = QrcodePollStatus.Expired) :
    LoginPage.tick st shouldPoll net = (st, none, false) :=
  tick_terminal_helper st shouldPoll net h

/-- Witness for C10: a concrete terminal page state ticks to itself with
no poll issued. -/
theorem tick_terminal_no_poll_witness :
    LoginPage.tick ⟨some ⟨"u", "k"⟩, none, QrcodePollStatus.Expired⟩ true (PollNet.err "boom")
      = (⟨some ⟨"u", "k"⟩, none, QrcodePollStatus.Expired⟩, none, false) :=
  tick_terminal_no_poll ⟨some ⟨"u", "k"⟩, none, QrcodePollStatus.Expired⟩ true
    (PollNet.err "boom") (Or.inr rfl)

/-- C3 counterexample: a poll sample with code 0 (Success) whose cookie
set yields no `Credentials` drives the page's status to `Success` — there
is no `Failed` state in the code's status type, so the machine does not
transition to a `Failed` state as claimed (it does, as claimed, produce no
`LoginSuccess` action). -/
theorem success_without_cookies_cex :
    LoginPage.tick ⟨some ⟨"u", "k"⟩, none, QrcodePollStatus.Waiting⟩ true
        (PollNet.ok ⟨some ⟨"", "rt", 0, 0, ""⟩, []⟩)
      = (⟨some ⟨"u", "k"⟩, none, QrcodePollStatus.Success⟩, none, true) := rfl

/-- C3 (amended): if a poll sample reports code 0 but credential
extraction from its cookies returns `none`, the machine transitions to the
terminal `Success` status (after which no further poll is issued and no
transition occurs) and no `LoginSuccess` action is produced; the code has
no `Failed` state. -/
theorem success_without_cookies_amended (st : LoginPage) (q : QrcodeData)
    (result : QrcodePollResult) (data : QrcodePollData)
    (hq : st.qrcode_data = some q)
    (hnt : ¬(st.poll_status = QrcodePollStatus.Success
      ∨ st.poll_status = QrcodePollStatus.Expired))
    (hd : result.data = some data) (hc : data.code = 0)
    (habs : Credentials.from_cookies result.cookies (some data.refresh_token) = none) :
    LoginPage.tick st true (PollNet.ok result)
      = ({ st with poll_status := QrcodePollStatus.Success }, none, true) ∧
    ∀ sp net, LoginPage.tick { st with poll_status := QrcodePollStatus.Success } sp net
      = ({ st with poll_status := QrcodePollStatus.Success }, none, false) := by
  have hfc : QrcodePollStatus.fromCode data.code = QrcodePollStatus.Success := by
    rw [hc]; rfl
  constructor
  · simp [LoginPage.tick, hq, hnt, hd, hfc, habs]
  · intro sp net
    exact tick_terminal_helper _ sp net (Or.inl rfl)

/-- Witness for C3 (amended): a concrete scanned page receiving Success
with a cookie set missing the mandatory cookies. -/
theorem success_without_cookies_amended_witness :
    LoginPage.tick ⟨some ⟨"u", "k"⟩, none, QrcodePollStatus.Scanned⟩ true
        (PollNet.ok ⟨some ⟨"", "r", 0, 0, ""⟩, [("SESSDATA", "s")]⟩)
      = (⟨some ⟨"u", "k"⟩, none, QrcodePollStatus.Success⟩, none, true) :=
  (success_without_cookies_amended ⟨some ⟨"u", "k"⟩, none, QrcodePollStatus.Scanned⟩
    ⟨"u", "k"⟩ ⟨some ⟨"", "r", 0, 0, ""⟩, [("SESSDATA", "s")]⟩ ⟨"", "r", 0, 0, ""⟩
    rfl (by decide) rfl rfl rfl).1

/-- C4 counterexample: in the `Scanned` polling sub-state, a sample with
the unlisted code 12345 changes the page's status to `Unknown 12345` — the
polling sub-state is not left unchanged as claimed. -/
theorem unknown_code_cex :
    LoginPage.tick ⟨some ⟨"u", "k"⟩, none, QrcodePollStatus.Scanned⟩ true
        (PollNet.ok ⟨some ⟨"", "r", 0, 12345, ""⟩, []⟩)
      = (⟨some ⟨"u", "k"⟩, none, QrcodePollStatus.Unknown 12345⟩, none, true) ∧
    QrcodePollStatus.Unknown 12345 ≠ QrcodePollStatus.Scanned :=
  ⟨rfl, by decide⟩

/-- C4 (amended): for every poll code outside the four listed codes,
processing the sample from a polling sub-state (`Waiting` or `Scanned`)
sets the status to `Unknown code` (retaining the numeric code), produces
no action, and the machine keeps polling on subsequent ticks (the
`Unknown` status is not terminal); the previous `Waiting`/`Scanned`
sub-state is overwritten, not retained. -/
theorem unknown_code_amended (st : LoginPage) (q : QrcodeData)
    (result : QrcodePollResult) (data : QrcodePollData)
    (hq : st.qrcode_data = some q)
    (hp : st.poll_status = QrcodePollStatus.Waiting
      ∨ st.poll_status = QrcodePollStatus.Scanned)
    (hd : result.data = some data)
    (hc : data.code ≠ 86101 ∧ data.code ≠ 86090 ∧ data.code ≠ 0 ∧ data.code ≠ 86038) :
    LoginPage.tick st true (PollNet.ok result)
      = ({ st with poll_status := QrcodePollStatus.Unknown data.code }, none, true) ∧
    ∀ net, (LoginPage.tick { st with poll_status := QrcodePollStatus.Unknown data.code }
        true net).2.2 = true := by
  have hnt : ¬(st.poll_status = QrcodePollStatus.Success
      ∨ st.poll_status = QrcodePollStatus.Expired) := by
    rcases hp with h | h <;> simp [h]
  have hfc : QrcodePollStatus.fromCode data.code = QrcodePollStatus.Unknown data.code := by
    unfold QrcodePollStatus.fromCode
    rw [if_neg hc.1, if_neg hc.2.1, if_neg hc.2.2.1, if_neg hc.2.2.2]
  constructor
  · simp [LoginPage.tick, hq, hnt, hd, hfc]
  · intro net
    exact tick_nonterminal_polls _ q net hq (by simp)

/-- Witness for C4 (amended): a concrete waiting page receiving the
unlisted code 404. -/
theorem unknown_code_amended_witness :
    LoginPage.tick ⟨some ⟨"u", "k"⟩, none, QrcodePollStatus.Waiting⟩ true
        (PollNet.ok ⟨some ⟨"", "r", 0, 404, ""⟩, []⟩)
      = (⟨some ⟨"u", "k"⟩, none, QrcodePollStatus.Unknown 404⟩, none, true) :=
  (unknown_code_amended ⟨some ⟨"u", "k"⟩, none, QrcodePollStatus.Waiting⟩ ⟨"u", "k"⟩
    ⟨some ⟨"", "r", 0, 404, ""⟩, []⟩ ⟨"", "r", 0, 404, ""⟩ rfl (Or.inl rfl) rfl
    (by decide)).1
